import Mathlib

/-!
# Verification of the manage-gmail rule-matching and classification engine

Shallow embedding, in Lean 4, of the decision logic of the repository:

* `email_classification.py` — the keyword classifier (`classify_email`,
  `CATEGORIES`, `CATEGORY_PRIORITY`);
* `categorize_emails.py` — grouping (`group_emails_by_pattern`),
  criteria matching (`matches_any_criteria`) and the decided-cluster filter
  (`load_existing_criteria`, `filter_decided_emails`);
* `email_review_server.py` — the rule-store operations
  (`create_criteria_entry`, `is_duplicate_criteria`,
  `matches_criteria_pattern`, `remove_from_criteria`, `add_criteria`,
  `mark_keep`);
* `delete_gmails.py` — the batch deleter (`build_query`,
  `delete_emails_by_criteria`).

Python strings are modelled as `String`; Python's `x in s` substring test
becomes infix testing on the character lists; Python `None` and `""` are both
falsy and are collapsed to `""` where the source only tests truthiness.
File and network I/O is replaced by explicit state records and oracle
functions.  Theorems about each spec claim follow the definitions.
-/

namespace ManageGmail

/-- Contiguous-sublist test on character lists (executable version of
`List.IsInfix`): `needle` is a prefix of some suffix of `haystack`. -/
def subList (needle : List Char) : List Char → Bool
  | [] => needle.isEmpty
  | c :: rest => needle.isPrefixOf (c :: rest) || subList needle rest

/-- Python's substring operator `needle in haystack` on strings: the character
sequence of `needle` occurs contiguously inside `haystack`. -/
def inStr (needle haystack : String) : Bool :=
  subList needle.toList haystack.toList

/-- Python's `str.lower()`, applied character by character (the repository's
domains, subjects and keywords are ASCII, where this agrees with Python). -/
def pyLower (s : String) : String :=
  String.mk (s.toList.map Char.toLower)

/-! ## Classifier (`email_classification.py`) -/

/-- `CATEGORIES[cat]['keywords']` from `email_classification.py`: the fixed
keyword list of each category.  `UNKNOWN` has no keywords (fallback); a name
outside the table also gives `[]` (the source never looks one up). -/
def keywords : String → List String
  | "PROMO" =>
    ["sale", "% off", "deal", "save", "free", "offer", "discount",
     "webinar", "newsletter", "digest", "trending", "recommended",
     "treating you to", "qualify for", "Fitbit", "smart scale",
     "limited time", "expires", "don't miss", "last chance",
     "exclusive", "special offer", "promo", "coupon", "savings",
     "clearance", "flash sale", "black friday", "cyber monday",
     "holiday sale", "end of season", "reward", "bonus", "gift card",
     "earn points", "member benefit", "upgrade now", "try free",
     "get started", "join now", "sign up today", "act now",
     "hurry", "today only", "this week only", "while supplies last"]
  | "NEWSLETTER" =>
    ["newsletter", "weekly update", "daily digest", "monthly roundup",
     "week in review", "news at", "what's new", "latest from",
     "insights", "tips and tricks", "blog post", "new article",
     "market outlook", "industry news", "tech news"]
  | "ALERT" =>
    ["alert", "transaction", "payment received", "payment made",
     "payment scheduled", "payment drafted", "payment confirmed",
     "account activity", "unusual activity", "fraud", "suspicious"]
  | "RECEIPT" =>
    ["receipt", "invoice", "your order", "order confirmed",
     "order number", "purchase", "payment confirmation",
     "billing", "charged", "subscription confirmed"]
  | "STATEMENT" =>
    ["statement", "account update", "form 16", "tds", "gst",
     "tax certificate", "annual report", "quarterly report",
     "account summary", "balance", "eStatement", "e-statement",
     "combined statement", "monthly statement"]
  | "SECURITY" =>
    ["security alert", "verification", "otp", "sign in",
     "new login", "password", "authentication", "verify your",
     "confirm your identity", "two-factor", "2fa", "access code",
     "security code", "one-time", "suspicious sign-in"]
  | "MEDICAL" =>
    ["mychart", "appointment", "doctor", "prescription",
     "health", "medical", "patient", "clinic", "hospital",
     "lab results", "test results", "diagnosis", "treatment",
     "pharmacy", "medication", "vaccine", "immunization",
     "explanation of benefits", "eob", "claim", "insurance claim"]
  | "ORDER" =>
    ["shipped", "delivered", "tracking", "out for delivery",
     "in transit", "delivery scheduled", "package", "shipment",
     "carrier", "fedex", "ups", "usps", "dhl", "on its way",
     "expected delivery", "order status", "dispatch"]
  | "TRAVEL" =>
    ["flight", "boarding", "itinerary", "booking confirmation",
     "reservation", "check-in", "baggage", "gate", "departure",
     "arrival", "hotel", "car rental", "trip", "travel"]
  | "MORTGAGE" =>
    ["mortgage", "escrow", "property tax", "home loan",
     "interest rate", "loan payment", "refinance", "deed",
     "title", "homeowner", "hoa"]
  | _ => []

/-- `CATEGORY_PRIORITY` from `email_classification.py`: the first match in
this order wins. -/
def CATEGORY_PRIORITY : List String :=
  ["SECURITY", "ALERT", "MEDICAL", "TRAVEL", "MORTGAGE", "ORDER",
   "RECEIPT", "STATEMENT", "NEWSLETTER", "PROMO", "UNKNOWN"]

/-- The part of `classify_email`'s result dictionary that carries decision
content (the colour/icon fields are a fixed function of `category`). -/
structure Classification where
  category : String
  matched_keyword : Option String
deriving DecidableEq, Repr

/-- The inner keyword loop of `classify_email`: first keyword of the list that
occurs (lower-cased) in the lower-cased subject. -/
def findKeyword (subjectLower : String) (kws : List String) : Option String :=
  kws.find? (fun kw => inStr (pyLower kw) subjectLower)

/-- The outer loop of `classify_email`: scan the priority list, skip
`"UNKNOWN"`, return the first category with a matching keyword. -/
def classifyScan (subjectLower : String) : List String → Option (String × String)
  | [] => none
  | c :: rest =>
    if c = "UNKNOWN" then classifyScan subjectLower rest
    else
      match findKeyword subjectLower (keywords c) with
      | some kw => some (c, kw)
      | none => classifyScan subjectLower rest

/-- `classify_email(subject)` from `email_classification.py`.  The argument is
an `Option` because callers may pass `None`; `if not subject` catches both
`None` and the empty string. -/
def classify_email : Option String → Classification
  | none => ⟨"UNKNOWN", none⟩
  | some subject =>
    if subject = "" then ⟨"UNKNOWN", none⟩
    else
      match classifyScan (pyLower subject) CATEGORY_PRIORITY with
      | some (c, kw) => ⟨c, some kw⟩
      | none => ⟨"UNKNOWN", none⟩

/-! ### Classifier lemmas -/

theorem findKeyword_eq_some {s kw : String} {kws : List String}
    (h : findKeyword s kws = some kw) :
    kw ∈ kws ∧ inStr (pyLower kw) s = true := by
  rw [findKeyword] at h
  exact ⟨List.mem_of_find?_eq_some h, by simpa using List.find?_some h⟩

theorem findKeyword_unknown (s : String) :
    findKeyword s (keywords "UNKNOWN") = none := rfl

theorem classifyScan_eq_some {s c kw : String} :
    ∀ {cats : List String}, classifyScan s cats = some (c, kw) →
      c ∈ cats ∧ c ≠ "UNKNOWN" ∧ kw ∈ keywords c ∧ inStr (pyLower kw) s = true := by
  intro cats
  induction cats with
  | nil => intro h; simp [classifyScan] at h
  | cons c0 rest ih =>
    intro h
    by_cases hU : c0 = "UNKNOWN"
    · rw [classifyScan, if_pos hU] at h
      obtain ⟨h1, h2, h3, h4⟩ := ih h
      exact ⟨List.mem_cons_of_mem _ h1, h2, h3, h4⟩
    · rw [classifyScan, if_neg hU] at h
      cases hfk : findKeyword s (keywords c0) with
      | some kw0 =>
        rw [hfk] at h
        obtain ⟨hc, hkw⟩ : c0 = c ∧ kw0 = kw := by
          simpa using h
        subst hc; subst hkw
        obtain ⟨hm, hin⟩ := findKeyword_eq_some hfk
        exact ⟨List.mem_cons_self _ _, hU, hm, hin⟩
      | none =>
        rw [hfk] at h
        obtain ⟨h1, h2, h3, h4⟩ := ih h
        exact ⟨List.mem_cons_of_mem _ h1, h2, h3, h4⟩

theorem findKeyword_isSome_of_mem {s kw : String} {kws : List String}
    (hm : kw ∈ kws) (hin : inStr (pyLower kw) s = true) :
    (findKeyword s kws).isSome := by
  rw [findKeyword, List.find?_isSome]
  exact ⟨kw, hm, hin⟩

/-- The priority scan returns the earliest-listed category among those whose
keywords match, provided every matching category is `c1` or `c2` and `c1`
comes first. -/
theorem classifyScan_wins (s : String) :
    ∀ (cats : List String) (c1 c2 : String),
      c1 ∈ cats →
      (findKeyword s (keywords c1)).isSome →
      (findKeyword s (keywords c2)).isSome →
      (∀ c, c ∈ cats → (findKeyword s (keywords c)).isSome → c = c1 ∨ c = c2) →
      cats.indexOf c1 < cats.indexOf c2 →
      ∃ kw, classifyScan s cats = some (c1, kw) ∧
        findKeyword s (keywords c1) = some kw := by
  intro cats
  induction cats with
  | nil => intro c1 c2 h1 _ _ _ _; exact absurd h1 (List.not_mem_nil c1)
  | cons c0 rest ih =>
    intro c1 c2 hmem hfind1 hfind2 honly hrank
    have hne1 : c1 ≠ "UNKNOWN" := by
      intro he; rw [he, findKeyword_unknown] at hfind1; simp at hfind1
    have hne2 : c2 ≠ "UNKNOWN" := by
      intro he; rw [he, findKeyword_unknown] at hfind2; simp at hfind2
    by_cases hU : c0 = "UNKNOWN"
    · have hc1 : c0 ≠ c1 := fun he => hne1 (he ▸ hU)
      have hc2 : c0 ≠ c2 := fun he => hne2 (he ▸ hU)
      have hmem' : c1 ∈ rest := by
        cases List.mem_cons.mp hmem with
        | inl h => exact absurd h.symm hc1
        | inr h => exact h
      have hrank' : rest.indexOf c1 < rest.indexOf c2 := by
        rw [List.indexOf_cons_ne _ hc1, List.indexOf_cons_ne _ hc2] at hrank
        exact Nat.succ_lt_succ_iff.mp hrank
      obtain ⟨kw, hscan, hfk⟩ :=
        ih c1 c2 hmem' hfind1 hfind2
          (fun c hc hs => honly c (List.mem_cons_of_mem _ hc) hs) hrank'
      exact ⟨kw, by rw [classifyScan, if_pos hU]; exact hscan, hfk⟩
    · cases hfk0 : findKeyword s (keywords c0) with
      | some kw0 =>
        have : c0 = c1 ∨ c0 = c2 :=
          honly c0 (List.mem_cons_self _ _) (by rw [hfk0]; rfl)
        cases this with
        | inl he =>
          subst he
          refine ⟨kw0, ?_, hfk0⟩
          rw [classifyScan, if_neg hU, hfk0]
        | inr he =>
          subst he
          rw [List.indexOf_cons_self] at hrank
          exact absurd hrank (Nat.not_lt_zero _)
      | none =>
        have hc1 : c0 ≠ c1 := by
          intro he; rw [he] at hfk0; rw [hfk0] at hfind1; simp at hfind1
        have hc2 : c0 ≠ c2 := by
          intro he; rw [he] at hfk0; rw [hfk0] at hfind2; simp at hfind2
        have hmem' : c1 ∈ rest := by
          cases List.mem_cons.mp hmem with
          | inl h => exact absurd h.symm hc1
          | inr h => exact h
        have hrank' : rest.indexOf c1 < rest.indexOf c2 := by
          rw [List.indexOf_cons_ne _ hc1, List.indexOf_cons_ne _ hc2] at hrank
          exact Nat.succ_lt_succ_iff.mp hrank
        obtain ⟨kw, hscan, hfk⟩ :=
          ih c1 c2 hmem' hfind1 hfind2
            (fun c hc hs => honly c (List.mem_cons_of_mem _ hc) hs) hrank'
        refine ⟨kw, ?_, hfk⟩
        rw [classifyScan, if_neg hU, hfk0]
        exact hscan

/-- C10 — For every input to `classify_email` (a string or a missing subject),
the matched keyword is `none` iff the category is the fallback `"UNKNOWN"`;
and a returned keyword always belongs to the returned category's fixed keyword
list and occurs case-insensitively as a substring of the subject. -/
theorem classify_email_keyword_invariant (subject : Option String) :
    ((classify_email subject).matched_keyword = none ↔
      (classify_email subject).category = "UNKNOWN") ∧
    (∀ kw, (classify_email subject).matched_keyword = some kw →
      kw ∈ keywords (classify_email subject).category ∧
      ∃ s, subject = some s ∧ inStr (pyLower kw) (pyLower s) = true) := by
  cases subject with
  | none => exact ⟨by simp [classify_email], by simp [classify_email]⟩
  | some s =>
    by_cases hs : s = ""
    · subst hs
      exact ⟨by simp [classify_email], by simp [classify_email]⟩
    · cases hscan : classifyScan (pyLower s) CATEGORY_PRIORITY with
      | none =>
        constructor
        · simp [classify_email, hs, hscan]
        · intro kw hkw
          simp [classify_email, hs, hscan] at hkw
      | some p =>
        obtain ⟨c, kw0⟩ := p
        obtain ⟨_, hcne, hkmem, hkin⟩ := classifyScan_eq_some hscan
        constructor
        · simp [classify_email, hs, hscan]
          exact fun h => absurd h hcne
        · intro kw hkw
          have hck : (classify_email (some s)).category = c ∧ kw0 = kw := by
            simp [classify_email, hs, hscan] at hkw ⊢
            exact hkw
          obtain ⟨hc, hk⟩ := hck
          subst hk
          rw [hc]
          exact ⟨hkmem, s, rfl, hkin⟩

/-- C4 — For a subject whose matching categories are exactly two categories of
different priority rank, `classify_email` returns the higher-priority one
together with one of its keywords, regardless of where in the subject each
keyword occurs. -/
theorem classify_email_priority_wins
    (subject c1 c2 kw1 kw2 : String)
    (hs : subject ≠ "")
    (hmem1 : c1 ∈ CATEGORY_PRIORITY) (hmem2 : c2 ∈ CATEGORY_PRIORITY)
    (hrank : CATEGORY_PRIORITY.indexOf c1 < CATEGORY_PRIORITY.indexOf c2)
    (hkw1 : kw1 ∈ keywords c1) (hin1 : inStr (pyLower kw1) (pyLower subject) = true)
    (hkw2 : kw2 ∈ keywords c2) (hin2 : inStr (pyLower kw2) (pyLower subject) = true)
    (honly : ∀ c, c ∈ CATEGORY_PRIORITY →
      (∃ k, k ∈ keywords c ∧ inStr (pyLower k) (pyLower subject) = true) →
      c = c1 ∨ c = c2) :
    (classify_email (some subject)).category = c1 ∧
    ∃ kw, (classify_email (some subject)).matched_keyword = some kw ∧
      kw ∈ keywords c1 ∧ inStr (pyLower kw) (pyLower subject) = true := by
  have hfind1 := findKeyword_isSome_of_mem (s := (pyLower subject)) hkw1 hin1
  have hfind2 := findKeyword_isSome_of_mem (s := (pyLower subject)) hkw2 hin2
  have honly' : ∀ c, c ∈ CATEGORY_PRIORITY →
      (findKeyword (pyLower subject) (keywords c)).isSome → c = c1 ∨ c = c2 := by
    intro c hc hsome
    obtain ⟨k, hfk⟩ := Option.isSome_iff_exists.mp hsome
    obtain ⟨hkm, hki⟩ := findKeyword_eq_some hfk
    exact honly c hc ⟨k, hkm, hki⟩
  obtain ⟨kw, hscan, hfk⟩ :=
    classifyScan_wins (pyLower subject) CATEGORY_PRIORITY c1 c2
      hmem1 hfind1 hfind2 honly' hrank
  obtain ⟨hkmem, hkin⟩ := findKeyword_eq_some hfk
  constructor
  · simp [classify_email, hs, hscan]
  · exact ⟨kw, by simp [classify_email, hs, hscan], hkmem, hkin⟩

/-- Witness for C4: the subject `"Alert: flash sale"` matches only the
categories `ALERT` (rank 1) and `PROMO` (rank 9); the classifier returns
`ALERT` with one of its keywords, although the `PROMO` keywords also occur. -/
theorem classify_email_priority_wins_witness :
    (classify_email (some "Alert: flash sale")).category = "ALERT" ∧
    ∃ kw, (classify_email (some "Alert: flash sale")).matched_keyword = some kw ∧
      kw ∈ keywords "ALERT" ∧ inStr (pyLower kw) (pyLower "Alert: flash sale") = true :=
  classify_email_priority_wins "Alert: flash sale" "ALERT" "PROMO" "alert" "sale"
    (by decide) (by decide) (by decide) (by decide) (by decide) (by decide)
    (by decide) (by decide) (by decide)

/-- Witness for C10 at the concrete subjects `"Your OTP is 493021"` (matched)
and `""` (fallback). -/
theorem classify_email_keyword_invariant_witness :
    (((classify_email (some "Your OTP is 493021")).matched_keyword = none ↔
       (classify_email (some "Your OTP is 493021")).category = "UNKNOWN") ∧
     (∀ kw, (classify_email (some "Your OTP is 493021")).matched_keyword = some kw →
       kw ∈ keywords (classify_email (some "Your OTP is 493021")).category ∧
       ∃ s, some "Your OTP is 493021" = some s ∧
         inStr (pyLower kw) (pyLower s) = true)) ∧
    ((classify_email none).matched_keyword = none ↔
      (classify_email none).category = "UNKNOWN") :=
  ⟨classify_email_keyword_invariant (some "Your OTP is 493021"),
   (classify_email_keyword_invariant none).1⟩

/-! ## Rule store (`email_review_server.py`)

A rule ("criteria entry") is a JSON object with exactly the keys
`email, subdomain, primaryDomain, subject, toEmails, ccEmails,
excludeSubject`, all strings defaulting to the empty string. -/

structure Criterion where
  email : String := ""
  subdomain : String := ""
  primaryDomain : String := ""
  subject : String := ""
  toEmails : String := ""
  ccEmails : String := ""
  excludeSubject : String := ""
deriving DecidableEq, Repr

/-- `create_criteria_entry(domain, subject_pattern, exclude_subject)`: the
Python defaults `subject_pattern=None` / `exclude_subject=None` are collapsed
to `""` (the source applies `or ""`). -/
def create_criteria_entry (domain subject_pattern exclude_subject : String) :
    Criterion :=
  { primaryDomain := domain, subject := subject_pattern,
    excludeSubject := exclude_subject }

/-- `is_duplicate_criteria(criteria_list, new_entry)`: an entry with the same
lower-cased `primaryDomain` and lower-cased `subject` already exists.  The
source lower-cases but never strips whitespace. -/
def is_duplicate_criteria (criteria_list : List Criterion)
    (new_entry : Criterion) : Bool :=
  criteria_list.any fun entry =>
    decide (pyLower entry.primaryDomain = pyLower new_entry.primaryDomain ∧
            pyLower entry.subject = pyLower new_entry.subject)

/-- `matches_criteria_pattern(entry, domain, subject_pattern)`: domain equal
(lower-cased), and either subject empty on either side or one lower-cased
subject a substring of the other. -/
def matches_criteria_pattern (entry : Criterion)
    (domain subject_pattern : String) : Bool :=
  let entry_domain := pyLower entry.primaryDomain
  let entry_subject := pyLower entry.subject
  let domain_lower := if domain = "" then "" else pyLower domain
  let subject_lower := if subject_pattern = "" then "" else pyLower subject_pattern
  if entry_domain = domain_lower then
    if entry_subject = "" ∨ subject_lower = "" then true
    else if inStr entry_subject subject_lower ∨ inStr subject_lower entry_subject
      then true
      else false
  else false

/-- `remove_from_criteria(domain, subject_pattern)` acting on the in-memory
list loaded from `criteria.json`: keeps the non-matching entries and returns
them with the removed count. -/
def remove_from_criteria (criteria : List Criterion)
    (domain subject_pattern : String) : List Criterion × Nat :=
  let filtered :=
    criteria.filter fun c => !(matches_criteria_pattern c domain subject_pattern)
  (filtered, criteria.length - filtered.length)

/-- Outcome of the `/api/add-criteria` handler. -/
inductive AddOutcome where
  | missingDomain
  | duplicate
  | added (entry : Criterion)
deriving DecidableEq, Repr

/-- `add_criteria` (the `/api/add-criteria` POST handler, identically
`add_criteria_1day` for `criteria_1day_old.json`): reject an empty domain,
reject duplicates with HTTP 409, otherwise append and save.  The file I/O is
modelled by passing the collection in and out. -/
def add_criteria (criteria : List Criterion)
    (domain subject_pattern exclude_subject : String) :
    AddOutcome × List Criterion :=
  if domain = "" then (.missingDomain, criteria)
  else
    let new_entry := create_criteria_entry domain subject_pattern exclude_subject
    if is_duplicate_criteria criteria new_entry then (.duplicate, criteria)
    else (.added new_entry, criteria ++ [new_entry])

/-- The three persisted rule collections the server mutates:
`criteria.json` (delete now), `criteria_1day_old.json` (delete after grace)
and `keep_criteria.json` (keep/protect). -/
structure ServerState where
  criteria : List Criterion
  criteria_1day : List Criterion
  keep_criteria : List Criterion
deriving DecidableEq, Repr

/-- Result fields of the `/api/mark-keep` handler's JSON response. -/
structure MarkKeepResult where
  removed_from_delete : Nat
  added_to_keep : Bool
deriving DecidableEq, Repr

/-- `mark_keep` (the `/api/mark-keep` POST handler): remove matching entries
from `criteria.json`, then add the pattern to `keep_criteria.json` unless it
is already there.  `none` models the HTTP 400 for a missing domain; the
timestamped append to the `logs/keep_list.json` log is reporting only and not
part of the state model. -/
def mark_keep (st : ServerState) (domain subject_pattern : String) :
    Option (MarkKeepResult × ServerState) :=
  if domain = "" then none
  else
    let rc := remove_from_criteria st.criteria domain subject_pattern
    let keep_entry := create_criteria_entry domain subject_pattern ""
    if is_duplicate_criteria st.keep_criteria keep_entry then
      some (⟨rc.2, false⟩, { st with criteria := rc.1 })
    else
      some (⟨rc.2, true⟩,
        { st with criteria := rc.1,
                  keep_criteria := st.keep_criteria ++ [keep_entry] })

/-! ### C2 — what a keep action removes -/

/-- Counterexample to C2 as stated: the rule `(shop.com, "Sale")` sits in the
deleteAfterGrace collection (`criteria_1day_old.json`) and matches the keep
pair `(shop.com, "")`, yet `mark_keep` leaves the grace collection untouched —
only `criteria.json` is purged before the keep entry is added. -/
theorem mark_keep_grace_counterexample :
    matches_criteria_pattern (create_criteria_entry "shop.com" "Sale" "")
      "shop.com" "" = true ∧
    mark_keep ⟨[], [create_criteria_entry "shop.com" "Sale" ""], []⟩
        "shop.com" "" =
      some (⟨0, true⟩,
        ⟨[], [create_criteria_entry "shop.com" "Sale" ""],
         [create_criteria_entry "shop.com" "" ""]⟩) := by
  decide

/-- C2 (amended) — A keep action with a non-empty domain removes, before the
entry is added to the keep collection, every matching rule from the
`deleteNow` collection (`criteria.json`) only; the `deleteAfterGrace`
collection (`criteria_1day_old.json`) is not touched. -/
theorem mark_keep_removes_matching_deleteNow (st : ServerState)
    (domain subject_pattern : String) (hd : domain ≠ "") :
    ∃ r st', mark_keep st domain subject_pattern = some (r, st') ∧
      st'.criteria =
        st.criteria.filter
          (fun c => !(matches_criteria_pattern c domain subject_pattern)) ∧
      (∀ c ∈ st'.criteria,
        matches_criteria_pattern c domain subject_pattern = false) ∧
      st'.criteria_1day = st.criteria_1day ∧
      r.removed_from_delete = st.criteria.length - st'.criteria.length ∧
      (r.added_to_keep = true →
        st'.keep_criteria =
          st.keep_criteria ++ [create_criteria_entry domain subject_pattern ""]) ∧
      (r.added_to_keep = false → st'.keep_criteria = st.keep_criteria) := by
  rw [mark_keep, if_neg hd]
  have hmem : ∀ c ∈ st.criteria.filter
      (fun c => !(matches_criteria_pattern c domain subject_pattern)),
      matches_criteria_pattern c domain subject_pattern = false := by
    intro c hc
    have := (List.mem_filter.mp hc).2
    simpa using this
  by_cases hdup : is_duplicate_criteria st.keep_criteria
      (create_criteria_entry domain subject_pattern "") = true
  · refine ⟨⟨(remove_from_criteria st.criteria domain subject_pattern).2, false⟩,
      { st with criteria := (remove_from_criteria st.criteria domain subject_pattern).1 },
      ?_, rfl, hmem, rfl, rfl, ?_, fun _ => rfl⟩
    · simp [hdup]
    · exact fun h => absurd h (by simp)
  · rw [Bool.not_eq_true] at hdup
    refine ⟨⟨(remove_from_criteria st.criteria domain subject_pattern).2, true⟩,
      { st with
          criteria := (remove_from_criteria st.criteria domain subject_pattern).1,
          keep_criteria :=
            st.keep_criteria ++ [create_criteria_entry domain subject_pattern ""] },
      ?_, rfl, hmem, rfl, rfl, fun _ => rfl, ?_⟩
    · simp [hdup]
    · exact fun h => absurd h (by simp)

/-- Witness for C2 (amended) at a concrete state: a `deleteNow` rule for
`(shop.com, "Flash Sale")` is purged by keeping `(shop.com, "")`, the grace
collection survives unchanged. -/
theorem mark_keep_removes_matching_deleteNow_witness :
    ∃ r st', mark_keep
        ⟨[create_criteria_entry "shop.com" "Flash Sale" ""],
         [create_criteria_entry "shop.com" "Sale" ""], []⟩
        "shop.com" "" = some (r, st') ∧
      st'.criteria =
        (⟨[create_criteria_entry "shop.com" "Flash Sale" ""],
          [create_criteria_entry "shop.com" "Sale" ""], []⟩ :
            ServerState).criteria.filter
          (fun c => !(matches_criteria_pattern c "shop.com" "")) ∧
      (∀ c ∈ st'.criteria, matches_criteria_pattern c "shop.com" "" = false) ∧
      st'.criteria_1day = [create_criteria_entry "shop.com" "Sale" ""] ∧
      r.removed_from_delete = 1 - st'.criteria.length ∧
      (r.added_to_keep = true →
        st'.keep_criteria = [] ++ [create_criteria_entry "shop.com" "" ""]) ∧
      (r.added_to_keep = false → st'.keep_criteria = []) :=
  mark_keep_removes_matching_deleteNow
    ⟨[create_criteria_entry "shop.com" "Flash Sale" ""],
     [create_criteria_entry "shop.com" "Sale" ""], []⟩
    "shop.com" "" (by decide)

/-! ### C7 — duplicate detection -/

/-- The duplicate key of `is_duplicate_criteria`: lower-cased domain and
subject, with no whitespace stripping. -/
def dupKey (domain subject_pattern : String) (e : Criterion) : Bool :=
  decide (pyLower e.primaryDomain = pyLower domain ∧
          pyLower e.subject = pyLower subject_pattern)

/-- Python's `str.strip()`: drop leading and trailing whitespace.  Used only to
state the spec's normalization ("leading/trailing whitespace stripped"), which
the source does not implement. -/
def pyStrip (s : String) : String :=
  String.mk
    ((((s.toList.dropWhile Char.isWhitespace).reverse).dropWhile
      Char.isWhitespace).reverse)

/-- Counterexample to C7 as stated: `" shop.com"` and `"shop.com"` agree once
lower-cased and stripped, so under the claim's normalization the second add is
a duplicate and must be rejected — but `is_duplicate_criteria` never strips,
the add succeeds, and the collection ends with two rules for the same
normalized key. -/
theorem add_criteria_whitespace_counterexample :
    pyLower (pyStrip " shop.com") = pyLower (pyStrip "shop.com") ∧
    add_criteria [create_criteria_entry "shop.com" "" ""] " shop.com" "" "" =
      (.added (create_criteria_entry " shop.com" "" ""),
       [create_criteria_entry "shop.com" "" "",
        create_criteria_entry " shop.com" "" ""]) := by
  decide

/-- C7 (amended) — Normalization is lower-casing only (no whitespace
stripping): after a successful add of `(domain, subject_pattern)`, the
collection holds exactly one rule with that lower-cased key, and adding any
pair with the same lower-cased domain and lower-cased subject — the strings
themselves may differ in case — is rejected as a duplicate with the
collection unchanged. -/
theorem add_criteria_duplicate_rejected (criteria : List Criterion)
    (domain subject_pattern exclude_subject : String)
    (domain' subject_pattern' exclude' : String)
    (hd : domain ≠ "") (hd' : domain' ≠ "")
    (hdom : pyLower domain' = pyLower domain)
    (hsub : pyLower subject_pattern' = pyLower subject_pattern)
    (hfirst : add_criteria criteria domain subject_pattern exclude_subject =
      (.added (create_criteria_entry domain subject_pattern exclude_subject),
       criteria ++ [create_criteria_entry domain subject_pattern exclude_subject])) :
    (criteria ++ [create_criteria_entry domain subject_pattern exclude_subject]).countP
        (dupKey domain subject_pattern) = 1 ∧
    add_criteria
        (criteria ++ [create_criteria_entry domain subject_pattern exclude_subject])
        domain' subject_pattern' exclude' =
      (.duplicate,
       criteria ++ [create_criteria_entry domain subject_pattern exclude_subject]) := by
  rw [add_criteria, if_neg hd] at hfirst
  have hdup : is_duplicate_criteria criteria
      (create_criteria_entry domain subject_pattern exclude_subject) = false := by
    by_cases h : is_duplicate_criteria criteria
        (create_criteria_entry domain subject_pattern exclude_subject) = true
    · rw [if_pos h] at hfirst
      exact absurd (congrArg Prod.fst hfirst) (by simp)
    · simpa using h
  have hzero : criteria.countP (dupKey domain subject_pattern) = 0 := by
    rw [List.countP_eq_zero]
    intro e he hkey
    have : is_duplicate_criteria criteria
        (create_criteria_entry domain subject_pattern exclude_subject) = true := by
      rw [is_duplicate_criteria, List.any_eq_true]
      refine ⟨e, he, ?_⟩
      simpa [create_criteria_entry, dupKey] using hkey
    rw [this] at hdup
    exact absurd hdup (by simp)
  have hself : dupKey domain subject_pattern
      (create_criteria_entry domain subject_pattern exclude_subject) = true := by
    simp [dupKey, create_criteria_entry]
  constructor
  · rw [List.countP_append, hzero, List.countP_cons, List.countP_nil, hself]
    simp
  · have hdup2 : is_duplicate_criteria
        (criteria ++ [create_criteria_entry domain subject_pattern exclude_subject])
        (create_criteria_entry domain' subject_pattern' exclude') = true := by
      rw [is_duplicate_criteria, List.any_eq_true]
      exact ⟨create_criteria_entry domain subject_pattern exclude_subject,
        List.mem_append_right _ (List.mem_singleton.mpr rfl),
        by simp [create_criteria_entry, hdom, hsub]⟩
    rw [add_criteria, if_neg hd', if_pos hdup2]

/-- Witness for C7 (amended): add `(shop.com, sale)` to an empty collection,
then add the case-variant `(SHOP.COM, Sale)` — the second add is rejected and
exactly one rule is stored. -/
theorem add_criteria_duplicate_rejected_witness :
    ([] ++ [create_criteria_entry "shop.com" "sale" ""]).countP
        (dupKey "shop.com" "sale") = 1 ∧
    add_criteria ([] ++ [create_criteria_entry "shop.com" "sale" ""])
        "SHOP.COM" "Sale" "" =
      (.duplicate, [] ++ [create_criteria_entry "shop.com" "sale" ""]) :=
  add_criteria_duplicate_rejected [] "shop.com" "sale" "" "SHOP.COM" "Sale" ""
    (by decide) (by decide) (by decide) (by decide) (by decide)

/-! ## Pattern grouper (`categorize_emails.py`) -/

/-- Python's slice `s[:n]` on a string, by characters. -/
def pyTake (s : String) (n : Nat) : String :=
  String.mk (s.toList.take n)

/-- The fields of an `email_details` record that `group_emails_by_pattern`
reads (built in `fetch_all_unread_emails`). -/
structure EmailRec where
  id : String
  primaryDomain : String
  subject : String
  category : String
  category_icon : String
  category_color : String
  category_bg : String
deriving DecidableEq, Repr

/-- One value of the inner grouping dict: `subject_sample`, category metadata,
member count and the member list. -/
structure PatternData where
  subject_sample : String
  category : String
  category_icon : String
  category_color : String
  category_bg : String
  count : Nat
  emails : List EmailRec
deriving DecidableEq, Repr

/-- The `defaultdict` default entry of `group_emails_by_pattern`. -/
def emptyPattern : PatternData :=
  ⟨"", "UNKNOWN", "🟡", "#ffc107", "#fff3cd", 0, []⟩

/-- Ordered association list standing for a Python dict (Python dicts preserve
insertion order). -/
abbrev Assoc (α : Type) := List (String × α)

/-- Nested dict `grouped[domain][pattern_key]`. -/
abbrev Grouped := Assoc (Assoc PatternData)

/-- Dict read `d[k]`, `none` when absent. -/
def lookupAssoc {α : Type} (k : String) : Assoc α → Option α
  | [] => none
  | (k', v) :: rest => if k' = k then some v else lookupAssoc k rest

/-- `defaultdict` access-and-mutate: apply `f` to the entry at `k`, creating
it from the default `d` first when absent (new keys append, as in Python). -/
def updateAssoc {α : Type} (k : String) (d : α) (f : α → α) : Assoc α → Assoc α
  | [] => [(k, f d)]
  | (k', v) :: rest =>
    if k' = k then (k', f v) :: rest else (k', v) :: updateAssoc k d f rest

/-- The grouping key of an email: `pattern_key = f"{category}:{subject}"` with
`subject = email['subject'][:50]`. -/
def patternKeyOf (e : EmailRec) : String :=
  e.category ++ ":" ++ pyTake e.subject 50

/-- The mutation the grouping loop applies to the (possibly fresh) group
entry: fix `subject_sample` on first write, copy the category metadata,
bump `count`, append the email. -/
def updFun (e : EmailRec) (g : PatternData) : PatternData :=
  { g with
    subject_sample :=
      if g.subject_sample = "" then pyTake e.subject 50 else g.subject_sample,
    category := e.category,
    category_icon := e.category_icon,
    category_color := e.category_color,
    category_bg := e.category_bg,
    count := g.count + 1,
    emails := g.emails ++ [e] }

/-- The loop body of `group_emails_by_pattern` for one email:
`grouped[domain][pattern_key]` is read (default-created) and mutated. -/
def addEmail (grouped : Grouped) (e : EmailRec) : Grouped :=
  updateAssoc e.primaryDomain []
    (updateAssoc (patternKeyOf e) emptyPattern (updFun e)) grouped

/-- `group_emails_by_pattern(email_details)` from `categorize_emails.py`. -/
def group_emails_by_pattern (email_details : List EmailRec) : Grouped :=
  email_details.foldl addEmail []

/-- Whether an email falls under the cluster key `(d, pk)`. -/
def hasKey (d pk : String) (e : EmailRec) : Bool :=
  decide (e.primaryDomain = d ∧ patternKeyOf e = pk)

/-- Member count stored under key `(d, pk)` (0 when the key is absent). -/
def groupCount (g : Grouped) (d pk : String) : Nat :=
  match lookupAssoc d g with
  | none => 0
  | some patterns =>
    match lookupAssoc pk patterns with
    | none => 0
    | some pd => pd.count

/-- Member list stored under key `(d, pk)` (empty when the key is absent). -/
def groupMembers (g : Grouped) (d pk : String) : List EmailRec :=
  match lookupAssoc d g with
  | none => []
  | some patterns =>
    match lookupAssoc pk patterns with
    | none => []
    | some pd => pd.emails

theorem lookupAssoc_updateAssoc_self {α : Type} (k : String) (d : α) (f : α → α) :
    ∀ l : Assoc α,
      lookupAssoc k (updateAssoc k d f l) = some (f ((lookupAssoc k l).getD d)) := by
  intro l
  induction l with
  | nil => simp [lookupAssoc, updateAssoc]
  | cons hd tl ih =>
    obtain ⟨k', v⟩ := hd
    by_cases hk : k' = k
    · subst hk
      simp [lookupAssoc, updateAssoc]
    · simp [lookupAssoc, updateAssoc, hk, ih]

theorem lookupAssoc_updateAssoc_ne {α : Type} {k k2 : String} (d : α) (f : α → α)
    (hne : k ≠ k2) :
    ∀ l : Assoc α, lookupAssoc k (updateAssoc k2 d f l) = lookupAssoc k l := by
  intro l
  induction l with
  | nil => simp [lookupAssoc, updateAssoc, Ne.symm hne]
  | cons hd tl ih =>
    obtain ⟨k', v⟩ := hd
    by_cases hk : k' = k2
    · subst hk
      simp [lookupAssoc, updateAssoc, Ne.symm hne]
    · simp [lookupAssoc, updateAssoc, hk, ih]

/-- Inner-dict count read, for proofs about the nested structure. -/
def pCount (pk : String) (patterns : Assoc PatternData) : Nat :=
  match lookupAssoc pk patterns with
  | none => 0
  | some pd => pd.count

/-- Inner-dict member read, for proofs about the nested structure. -/
def pMembers (pk : String) (patterns : Assoc PatternData) : List EmailRec :=
  match lookupAssoc pk patterns with
  | none => []
  | some pd => pd.emails

theorem groupCount_eq_pCount (g : Grouped) (d pk : String) :
    groupCount g d pk = pCount pk ((lookupAssoc d g).getD []) := by
  cases h : lookupAssoc d g with
  | none => simp [groupCount, h, pCount, lookupAssoc]
  | some ps => simp [groupCount, h, pCount]

theorem groupMembers_eq_pMembers (g : Grouped) (d pk : String) :
    groupMembers g d pk = pMembers pk ((lookupAssoc d g).getD []) := by
  cases h : lookupAssoc d g with
  | none => simp [groupMembers, h, pMembers, lookupAssoc]
  | some ps => simp [groupMembers, h, pMembers]

theorem groupCount_addEmail (g : Grouped) (e : EmailRec) (d pk : String) :
    groupCount (addEmail g e) d pk =
      groupCount g d pk + (if hasKey d pk e then 1 else 0) := by
  by_cases hd : e.primaryDomain = d
  · subst hd
    rw [groupCount_eq_pCount, groupCount_eq_pCount]
    have h1 : lookupAssoc e.primaryDomain (addEmail g e) =
        some (updateAssoc (patternKeyOf e) emptyPattern (updFun e)
          ((lookupAssoc e.primaryDomain g).getD [])) :=
      lookupAssoc_updateAssoc_self _ _ _ _
    rw [h1, Option.getD_some]
    by_cases hpk : patternKeyOf e = pk
    · subst hpk
      have hkey : hasKey e.primaryDomain (patternKeyOf e) e = true := by
        simp [hasKey]
      rw [hkey]
      cases hl2 : lookupAssoc (patternKeyOf e) ((lookupAssoc e.primaryDomain g).getD []) with
      | none =>
        simp [pCount, lookupAssoc_updateAssoc_self, hl2, updFun, emptyPattern]
      | some pd =>
        simp [pCount, lookupAssoc_updateAssoc_self, hl2, updFun]
    · have hkey : hasKey e.primaryDomain pk e = false := by
        simp [hasKey]
        intro h
        exact hpk h
      rw [hkey]
      simp [pCount, lookupAssoc_updateAssoc_ne _ _ (Ne.symm hpk)]
  · rw [groupCount_eq_pCount, groupCount_eq_pCount]
    have h1 : lookupAssoc d (addEmail g e) = lookupAssoc d g :=
      lookupAssoc_updateAssoc_ne _ _ (Ne.symm hd) g
    have hkey : hasKey d pk e = false := by
      simp [hasKey]
      intro h
      exact absurd h hd
    rw [h1, hkey]
    simp

theorem groupMembers_addEmail (g : Grouped) (e : EmailRec) (d pk : String) :
    groupMembers (addEmail g e) d pk =
      groupMembers g d pk ++ (if hasKey d pk e then [e] else []) := by
  by_cases hd : e.primaryDomain = d
  · subst hd
    rw [groupMembers_eq_pMembers, groupMembers_eq_pMembers]
    have h1 : lookupAssoc e.primaryDomain (addEmail g e) =
        some (updateAssoc (patternKeyOf e) emptyPattern (updFun e)
          ((lookupAssoc e.primaryDomain g).getD [])) :=
      lookupAssoc_updateAssoc_self _ _ _ _
    rw [h1, Option.getD_some]
    by_cases hpk : patternKeyOf e = pk
    · subst hpk
      have hkey : hasKey e.primaryDomain (patternKeyOf e) e = true := by
        simp [hasKey]
      rw [hkey]
      cases hl2 : lookupAssoc (patternKeyOf e) ((lookupAssoc e.primaryDomain g).getD []) with
      | none =>
        simp [pMembers, lookupAssoc_updateAssoc_self, hl2, updFun, emptyPattern]
      | some pd =>
        simp [pMembers, lookupAssoc_updateAssoc_self, hl2, updFun]
    · have hkey : hasKey e.primaryDomain pk e = false := by
        simp [hasKey]
        intro h
        exact hpk h
      rw [hkey]
      simp [pMembers, lookupAssoc_updateAssoc_ne _ _ (Ne.symm hpk)]
  · rw [groupMembers_eq_pMembers, groupMembers_eq_pMembers]
    have h1 : lookupAssoc d (addEmail g e) = lookupAssoc d g :=
      lookupAssoc_updateAssoc_ne _ _ (Ne.symm hd) g
    have hkey : hasKey d pk e = false := by
      simp [hasKey]
      intro h
      exact absurd h hd
    rw [h1, hkey]
    simp

theorem groupCount_foldl (d pk : String) :
    ∀ (L : List EmailRec) (g : Grouped),
      groupCount (L.foldl addEmail g) d pk =
        groupCount g d pk + L.countP (hasKey d pk) := by
  intro L
  induction L with
  | nil => intro g; simp
  | cons e rest ih =>
    intro g
    rw [List.foldl_cons, ih, groupCount_addEmail, List.countP_cons]
    by_cases h : hasKey d pk e = true
    · simp only [h, if_true]
      omega
    · rw [Bool.not_eq_true] at h
      simp [h]

theorem groupMembers_foldl (d pk : String) :
    ∀ (L : List EmailRec) (g : Grouped),
      groupMembers (L.foldl addEmail g) d pk =
        groupMembers g d pk ++ L.filter (hasKey d pk) := by
  intro L
  induction L with
  | nil => intro g; simp
  | cons e rest ih =>
    intro g
    rw [List.foldl_cons, ih, groupMembers_addEmail, List.filter_cons]
    by_cases h : hasKey d pk e = true
    · simp [h]
    · rw [Bool.not_eq_true] at h
      simp [h]

/-- The count stored under a cluster key is the number of input emails with
that key. -/
theorem groupCount_eq_countP (L : List EmailRec) (d pk : String) :
    groupCount (group_emails_by_pattern L) d pk = L.countP (hasKey d pk) := by
  rw [group_emails_by_pattern, groupCount_foldl]
  simp [groupCount, lookupAssoc]

/-- The member list stored under a cluster key is the sublist of input emails
with that key, in input order. -/
theorem groupMembers_eq_filter (L : List EmailRec) (d pk : String) :
    groupMembers (group_emails_by_pattern L) d pk = L.filter (hasKey d pk) := by
  rw [group_emails_by_pattern, groupMembers_foldl]
  simp [groupMembers, lookupAssoc]

/-- C9 — Grouping is invariant under permutation of the input list: for every
cluster key, permuted inputs give the same `count` and the same multiset
(hence set) of member emails.  (`subject_sample` is first-seen order-sensitive
but is a function of the key here, since `subject[:50]` is part of the key.) -/
theorem group_emails_perm_invariant (L L' : List EmailRec)
    (hperm : L.Perm L') (d pk : String) :
    groupCount (group_emails_by_pattern L) d pk =
      groupCount (group_emails_by_pattern L') d pk ∧
    (groupMembers (group_emails_by_pattern L) d pk).Perm
      (groupMembers (group_emails_by_pattern L') d pk) := by
  rw [groupCount_eq_countP, groupCount_eq_countP,
    groupMembers_eq_filter, groupMembers_eq_filter]
  exact ⟨hperm.countP_eq _, hperm.filter _⟩

/-- Witness for C9 on a concrete permutation of three classified messages. -/
theorem group_emails_perm_invariant_witness :
    groupCount (group_emails_by_pattern
      [⟨"m1", "shop.com", "Hello", "PROMO", "i", "c", "b"⟩,
       ⟨"m2", "shop.com", "Hello", "PROMO", "i", "c", "b"⟩,
       ⟨"m3", "bank.com", "OTP", "SECURITY", "i", "c", "b"⟩])
      "shop.com" "PROMO:Hello" =
    groupCount (group_emails_by_pattern
      [⟨"m3", "bank.com", "OTP", "SECURITY", "i", "c", "b"⟩,
       ⟨"m2", "shop.com", "Hello", "PROMO", "i", "c", "b"⟩,
       ⟨"m1", "shop.com", "Hello", "PROMO", "i", "c", "b"⟩])
      "shop.com" "PROMO:Hello" ∧
    (groupMembers (group_emails_by_pattern
      [⟨"m1", "shop.com", "Hello", "PROMO", "i", "c", "b"⟩,
       ⟨"m2", "shop.com", "Hello", "PROMO", "i", "c", "b"⟩,
       ⟨"m3", "bank.com", "OTP", "SECURITY", "i", "c", "b"⟩])
      "shop.com" "PROMO:Hello").Perm
    (groupMembers (group_emails_by_pattern
      [⟨"m3", "bank.com", "OTP", "SECURITY", "i", "c", "b"⟩,
       ⟨"m2", "shop.com", "Hello", "PROMO", "i", "c", "b"⟩,
       ⟨"m1", "shop.com", "Hello", "PROMO", "i", "c", "b"⟩])
      "shop.com" "PROMO:Hello") :=
  group_emails_perm_invariant
    [⟨"m1", "shop.com", "Hello", "PROMO", "i", "c", "b"⟩,
     ⟨"m2", "shop.com", "Hello", "PROMO", "i", "c", "b"⟩,
     ⟨"m3", "bank.com", "OTP", "SECURITY", "i", "c", "b"⟩]
    [⟨"m3", "bank.com", "OTP", "SECURITY", "i", "c", "b"⟩,
     ⟨"m2", "shop.com", "Hello", "PROMO", "i", "c", "b"⟩,
     ⟨"m1", "shop.com", "Hello", "PROMO", "i", "c", "b"⟩]
    (by decide) "shop.com" "PROMO:Hello"

/-! ## Decided-cluster filter (`categorize_emails.py`) -/

/-- `matches_any_criteria(domain, subject, criteria_list)`: some entry's
lower-cased `primaryDomain` is non-empty and a substring of the lower-cased
domain, and its lower-cased `subject` is empty or a substring of the
lower-cased subject. -/
def matches_any_criteria (domain subject : String)
    (criteria_list : List Criterion) : Bool :=
  let domain_lower := if domain = "" then "" else pyLower domain
  let subject_lower := if subject = "" then "" else pyLower subject
  criteria_list.any fun c =>
    let c_domain := pyLower c.primaryDomain
    let c_subject := pyLower c.subject
    (!(decide (c_domain = "")) && inStr c_domain domain_lower) &&
      (decide (c_subject = "") || inStr c_subject subject_lower)

/-- The per-pattern decision test of `filter_decided_emails`:
`in_delete or in_keep`. -/
def isDecided (domain : String) (pd : PatternData)
    (criteria keep_criteria : List Criterion) : Bool :=
  matches_any_criteria domain pd.subject_sample criteria ||
    matches_any_criteria domain pd.subject_sample keep_criteria

/-- Inner loop of `filter_decided_emails` over one domain's patterns: keep the
undecided patterns (in order) and accumulate the `count` of the decided
ones. -/
def filterPatterns (domain : String) (criteria keep_criteria : List Criterion) :
    Assoc PatternData → Assoc PatternData × Nat
  | [] => ([], 0)
  | (pk, pd) :: rest =>
    let r := filterPatterns domain criteria keep_criteria rest
    if isDecided domain pd criteria keep_criteria then (r.1, pd.count + r.2)
    else ((pk, pd) :: r.1, r.2)

/-- `filter_decided_emails(grouped, criteria, keep_criteria)`: per domain,
drop the decided patterns; a domain with no undecided patterns left is dropped
entirely (its key is never written into the `defaultdict` output). -/
def filter_decided_emails (grouped : Grouped)
    (criteria keep_criteria : List Criterion) : Grouped × Nat :=
  match grouped with
  | [] => ([], 0)
  | (d, ps) :: rest =>
    let fp := filterPatterns d criteria keep_criteria ps
    let fr := filter_decided_emails rest criteria keep_criteria
    (if fp.1.isEmpty then fr.1 else (d, fp.1) :: fr.1, fp.2 + fr.2)

/-- The three criteria files on disk as the batch run sees them. -/
structure FileState where
  criteriaFile : List Criterion
  criteria1dayFile : List Criterion
  keepFile : List Criterion
deriving DecidableEq, Repr

/-- `load_existing_criteria()` from `categorize_emails.py`: it reads only
`criteria.json` and `keep_criteria.json`. -/
def load_existing_criteria (fs : FileState) : List Criterion × List Criterion :=
  (fs.criteriaFile, fs.keepFile)

/-- The FilterDecided step as the batch run composes it: load the criteria
files, then filter the grouped clusters. -/
def filterDecidedStep (fs : FileState) (grouped : Grouped) : Grouped × Nat :=
  let lc := load_existing_criteria fs
  filter_decided_emails grouped lc.1 lc.2

/-! ### C3 — which collections FilterDecided consults -/

/-- Counterexample to C3 as stated: the cluster `(shop.com, "PROMO:Hello")`
matches a rule that sits in the deleteAfterGrace collection
(`criteria_1day_old.json`), yet the FilterDecided step surfaces it unchanged
with a removed counter of 0 — the grace collection is never loaded, so the
cluster is not dropped and its member count (3) is not accumulated. -/
theorem filter_decided_grace_counterexample :
    matches_any_criteria "shop.com" "Hello"
      [create_criteria_entry "shop.com" "" ""] = true ∧
    filterDecidedStep
        ⟨[], [create_criteria_entry "shop.com" "" ""], []⟩
        [("shop.com",
          [("PROMO:Hello", ⟨"Hello", "PROMO", "🟢", "#28a745", "#d4edda", 3, []⟩)])] =
      ([("shop.com",
         [("PROMO:Hello", ⟨"Hello", "PROMO", "🟢", "#28a745", "#d4edda", 3, []⟩)])],
       0) := by
  decide

theorem filterPatterns_eq (domain : String)
    (criteria keep_criteria : List Criterion) :
    ∀ ps : Assoc PatternData,
      filterPatterns domain criteria keep_criteria ps =
        (ps.filter (fun p => !(isDecided domain p.2 criteria keep_criteria)),
         ((ps.filter (fun p => isDecided domain p.2 criteria keep_criteria)).map
           (fun p => p.2.count)).sum) := by
  intro ps
  induction ps with
  | nil => simp [filterPatterns]
  | cons hd tl ih =>
    obtain ⟨pk, pd⟩ := hd
    by_cases h : isDecided domain pd criteria keep_criteria = true
    · simp [filterPatterns, h, ih, List.filter_cons]
    · rw [Bool.not_eq_true] at h
      simp [filterPatterns, h, ih, List.filter_cons]

/-- C3 (amended) — The FilterDecided step tests every cluster against the
`deleteNow` collection (`criteria.json`) and the `keep` collection
(`keep_criteria.json`) only; a cluster matching either is dropped and its
member count is added to the removed counter; the `deleteAfterGrace`
collection is not consulted (`load_existing_criteria` never reads it). -/
theorem filter_decided_step_spec (fs : FileState) (grouped : Grouped) :
    filterDecidedStep fs grouped =
      ((grouped.map (fun dp => (dp.1,
          dp.2.filter
            (fun p => !(isDecided dp.1 p.2 fs.criteriaFile fs.keepFile))))).filter
         (fun dp => !dp.2.isEmpty),
       (grouped.map (fun dp =>
          ((dp.2.filter
              (fun p => isDecided dp.1 p.2 fs.criteriaFile fs.keepFile)).map
            (fun p => p.2.count)).sum)).sum) := by
  rw [filterDecidedStep]
  induction grouped with
  | nil => simp [filter_decided_emails, load_existing_criteria]
  | cons dp rest ih =>
    obtain ⟨d, ps⟩ := dp
    rw [filter_decided_emails]
    simp only [load_existing_criteria] at ih ⊢
    rw [filterPatterns_eq, ih]
    by_cases h :
        (ps.filter (fun p => !(isDecided d p.2 fs.criteriaFile fs.keepFile))).isEmpty
    · simp [h]
    · rw [Bool.not_eq_true] at h
      simp [h]

/-! ## Batch deleter (`delete_gmails.py`) -/

/-- The `query_parts` list built by `build_query`: `'is:unread'` always, then
one part per non-empty criterion field, the `excludeSubject` exclusion last. -/
def query_parts (c : Criterion) : List String :=
  ["is:unread"]
    ++ (if c.email = "" then [] else ["from:" ++ c.email])
    ++ (if c.subdomain = "" then [] else ["from:*@" ++ c.subdomain])
    ++ (if c.primaryDomain = "" then [] else ["from:*@" ++ c.primaryDomain])
    ++ (if c.subject = "" then [] else ["subject:(\"" ++ c.subject ++ "\")"])
    ++ (if c.toEmails = "" then [] else ["to:(\"" ++ c.toEmails ++ "\")"])
    ++ (if c.ccEmails = "" then [] else ["cc:(\"" ++ c.ccEmails ++ "\")"])
    ++ (if c.excludeSubject = "" then []
        else ["-subject:(\"" ++ c.excludeSubject ++ "\")"])

/-- `build_query(criterion)`: the parts joined with spaces, then `.strip()`. -/
def build_query (c : Criterion) : String :=
  pyStrip (String.intercalate " " (query_parts c))

/-- `RETRY_ATTEMPTS` from `delete_gmails.py`. -/
def RETRY_ATTEMPTS : Nat := 5

/-- What one `messages().list` call (with its pagination) can come back with,
as seen by the `try` block: the full id list on success, a 429, another
`HttpError`, or any other exception. -/
inductive ApiResult where
  | ok (ids : List String)
  | rateLimited
  | httpError (msg : String)
  | exn (msg : String)
deriving DecidableEq, Repr

/-- A cell of the `deleted_counts` / `dry_run_counts` result lists; the source
appends either a number or the empty string `''`. -/
inductive Cell where
  | num (n : Nat)
  | blank
deriving DecidableEq, Repr

/-- Everything one iteration of the criteria loop appends or does:
result-list entries, the `success` flag, how many searches it executed and
which ids it passed to `batchDelete`. -/
structure LoopResult where
  statuses : List String
  deleted : List Cell
  dryRun : List Cell
  success : Bool
  searches : Nat
  trashed : List String
deriving DecidableEq, Repr

/-- The `while current_retries < RETRY_ATTEMPTS` retry loop for one criterion.
`exec query attempt` is the mailbox oracle for the search on that attempt;
a 429 retries (consuming fuel), any other failure records an error triple and
breaks, success records its triple and trashes when live. -/
def attemptLoop (query : String) (exec : String → Nat → ApiResult)
    (dry_run : Bool) (attempt : Nat) : Nat → LoopResult
  | 0 => ⟨[], [], [], false, 0, []⟩
  | fuel + 1 =>
    match exec query attempt with
    | .ok ids =>
      if !ids.isEmpty then
        if !dry_run then ⟨["Success"], [.num ids.length], [.blank], true, 1, ids⟩
        else ⟨["Dry Run"], [.blank], [.num ids.length], true, 1, []⟩
      else ⟨["No matching emails found"], [.num 0], [.num 0], true, 1, []⟩
    | .rateLimited =>
      let r := attemptLoop query exec dry_run (attempt + 1) fuel
      { r with searches := r.searches + 1 }
    | .httpError msg =>
      ⟨["Failed: Gmail API error: " ++ msg], [.num 0], [.num 0], false, 1, []⟩
    | .exn msg =>
      ⟨["Failed: An unexpected error occurred: " ++ msg], [.num 0], [.num 0],
        false, 1, []⟩

/-- One iteration of the `for i, criterion in enumerate(criteria)` loop of
`delete_emails_by_criteria`: build the query, skip it as invalid when nothing
beyond `is:unread` remains (`continue`), otherwise run the retry loop and —
exactly as the source does — append a further `Retries exhausted` triple
whenever the loop ended without `success = True`. -/
def processCriterion (exec : String → Nat → ApiResult) (dry_run : Bool)
    (c : Criterion) : LoopResult :=
  let query := build_query c
  if query = "" ∨ pyStrip query = "is:unread" then
    ⟨["Failed: Invalid query"], [.num 0], [.num 0], false, 0, []⟩
  else
    let r := attemptLoop query exec dry_run 0 RETRY_ATTEMPTS
    if r.success then r
    else
      { r with
        statuses := r.statuses ++ ["Failed: Retries exhausted for query: " ++ query],
        deleted := r.deleted ++ [.num 0],
        dryRun := r.dryRun ++ [.num 0] }

/-- The per-criterion results of one batch run, in criteria order. -/
def runDeletion (exec : String → Nat → ApiResult) (criteria : List Criterion)
    (dry_run : Bool) : List LoopResult :=
  criteria.map (processCriterion exec dry_run)

/-- `delete_emails_by_criteria(gmail_service, criteria, dry_run)`: the three
result lists it returns (statuses, deleted counts, dry-run counts), which are
the concatenation of what each criterion's iteration appended. -/
def delete_emails_by_criteria (exec : String → Nat → ApiResult)
    (criteria : List Criterion) (dry_run : Bool) :
    List String × List Cell × List Cell :=
  (((runDeletion exec criteria dry_run).map LoopResult.statuses).flatten,
   ((runDeletion exec criteria dry_run).map LoopResult.deleted).flatten,
   ((runDeletion exec criteria dry_run).map LoopResult.dryRun).flatten)

/-- All message ids a batch run passes to `batchDelete`, in order. -/
def trashedIds (exec : String → Nat → ApiResult) (criteria : List Criterion)
    (dry_run : Bool) : List String :=
  ((runDeletion exec criteria dry_run).map LoopResult.trashed).flatten

/-! ### C1 — keep rules and the deletion run -/

/-- C1 fails on the code (code bug): the batch deleter never consults the keep
collection.  Concretely: the unread message `m1` (sender domain `shop.com`,
subject `Flash sale`) matches the `deleteNow` rule for `shop.com` — the
mailbox returns it for that rule's query — and also matches a keep rule for
`shop.com` (`matches_any_criteria` is true), yet its id is passed to
`batchDelete`: nothing in `delete_emails_by_criteria` filters ids against
`keep_criteria.json`. -/
theorem delete_run_ignores_keep_rules :
    matches_any_criteria "shop.com" "Flash sale"
      [create_criteria_entry "shop.com" "" ""] = true ∧
    trashedIds (fun _ _ => ApiResult.ok ["m1"])
      [create_criteria_entry "shop.com" "" ""] false = ["m1"] := by
  decide

/-! ### C5 — one outcome entry per criterion -/

/-- C5 fails on the code (code bug): a criterion whose search raises a
non-429 `HttpError` appends its error triple inside the `except` branch *and*,
because `success` is still false after the `break`, the `Retries exhausted`
triple after the loop.  Two criteria here produce three status entries, so the
outcome lists are longer than the criteria list and no longer index-aligned
(as `update_results_to_sheet` assumes). -/
theorem delete_statuses_double_append :
    ([(⟨"", "", "a.com", "", "", "", ""⟩ : Criterion),
      ⟨"", "", "b.com", "", "", "", ""⟩].length = 2) ∧
    (delete_emails_by_criteria
        (fun q _ => if q = "is:unread from:*@a.com"
          then ApiResult.httpError "boom" else ApiResult.ok [])
        [⟨"", "", "a.com", "", "", "", ""⟩, ⟨"", "", "b.com", "", "", "", ""⟩]
        false).1 =
      ["Failed: Gmail API error: boom",
       "Failed: Retries exhausted for query: is:unread from:*@a.com",
       "No matching emails found"] := by
  decide

/-! ### C6 — comma-joined subject exclusions -/

/-- Modelled from the spec's words, for comparison only (the source has no
such splitting): a variant of `query_parts` that splits `excludeSubject` on
commas and emits one negated constraint per piece. -/
def query_parts_split (c : Criterion) : List String :=
  ["is:unread"]
    ++ (if c.email = "" then [] else ["from:" ++ c.email])
    ++ (if c.subdomain = "" then [] else ["from:*@" ++ c.subdomain])
    ++ (if c.primaryDomain = "" then [] else ["from:*@" ++ c.primaryDomain])
    ++ (if c.subject = "" then [] else ["subject:(\"" ++ c.subject ++ "\")"])
    ++ (if c.toEmails = "" then [] else ["to:(\"" ++ c.toEmails ++ "\")"])
    ++ (if c.ccEmails = "" then [] else ["cc:(\"" ++ c.ccEmails ++ "\")"])
    ++ (if c.excludeSubject = "" then []
        else ((c.excludeSubject.toList.splitOn ',').map
          (fun ex => "-subject:(\"" ++ String.mk ex ++ "\")")))

/-- The spec-described query for the comparison in the C6 counterexample. -/
def build_query_split (c : Criterion) : String :=
  pyStrip (String.intercalate " " (query_parts_split c))

/-- Counterexample to C6 as stated: for `excludeSubject = "sale, offer"` the
source emits one negated constraint carrying the whole comma-joined string;
it does not split on commas as the claim describes. -/
theorem build_query_comma_counterexample :
    build_query (create_criteria_entry "shop.com" "" "sale, offer") =
      "is:unread from:*@shop.com -subject:(\"sale, offer\")" ∧
    build_query_split (create_criteria_entry "shop.com" "" "sale, offer") =
      "is:unread from:*@shop.com -subject:(\"sale\") -subject:(\" offer\")" ∧
    build_query (create_criteria_entry "shop.com" "" "sale, offer") ≠
      build_query_split (create_criteria_entry "shop.com" "" "sale, offer") := by
  decide

/-- C6 (amended) — A rule's comma-joined `excludeSubject` string is emitted as
a single negated subject constraint carrying the entire string, appended after
the other query parts; no comma splitting occurs. -/
theorem build_query_single_exclude (c : Criterion)
    (h : c.excludeSubject ≠ "") :
    query_parts c =
      query_parts { c with excludeSubject := "" } ++
        ["-subject:(\"" ++ c.excludeSubject ++ "\")"] := by
  rw [query_parts, query_parts]
  simp [h]

/-- Witness for C6 (amended) at `excludeSubject = "sale, offer"`. -/
theorem build_query_single_exclude_witness :
    query_parts (create_criteria_entry "shop.com" "" "sale, offer") =
      query_parts
          { create_criteria_entry "shop.com" "" "sale, offer" with
            excludeSubject := "" } ++
        ["-subject:(\"" ++ "sale, offer" ++ "\")"] :=
  build_query_single_exclude (create_criteria_entry "shop.com" "" "sale, offer")
    (by decide)

/-! ### C8 — invalid (unconstrained) queries are skipped -/

/-- C8 — A criterion whose built query has no constraint beyond the
always-present `is:unread` is skipped: its loop iteration records the single
outcome triple `('Failed: Invalid query', 0, 0)`, executes no mailbox search
(`searches = 0`) and trashes nothing (`trashed = []`). -/
theorem invalid_query_criterion_skipped (exec : String → Nat → ApiResult)
    (dry_run : Bool) (c : Criterion) (h : query_parts c = ["is:unread"]) :
    processCriterion exec dry_run c =
      ⟨["Failed: Invalid query"], [.num 0], [.num 0], false, 0, []⟩ := by
  have hq : build_query c = "is:unread" := by
    rw [build_query, h]
    decide
  have hcond : build_query c = "" ∨ pyStrip (build_query c) = "is:unread" :=
    Or.inr (by rw [hq]; decide)
  simp only [processCriterion]
  rw [if_pos hcond]

/-- Witness for C8: the all-empty criterion builds the bare `is:unread` query
and is skipped without any search, against a mailbox that would return a
message for every query. -/
theorem invalid_query_criterion_skipped_witness :
    query_parts {} = ["is:unread"] ∧
    processCriterion (fun _ _ => ApiResult.ok ["x"]) false {} =
      ⟨["Failed: Invalid query"], [.num 0], [.num 0], false, 0, []⟩ :=
  ⟨by decide,
   invalid_query_criterion_skipped (fun _ _ => ApiResult.ok ["x"]) false {}
     (by decide)⟩

end ManageGmail
